import Mathlib

/-!
Shallow embedding of the request/response relay core of
`src/fastapi_nvidia_nim_proxy.py` (a FastAPI proxy in front of an
OpenAI-compatible inference backend), together with theorems checking the
natural-language specification against it.

Modelling conventions:
* JSON values are the inductive `PyJson`; Python dictionaries are association
  lists in insertion order.
* Python exceptions raised inside a handler body are values of `PyExc`; a
  handler body is a Lean function returning `Except PyExc _`, and the
  `try/except` chain of each route handler is applied to that result.
* Python string methods used by the source (`str.split`, `str.startswith`)
  are given their Python semantics on `List Char`.
* The HTTP backend is a function from endpoint path and request document to a
  `BackendResponse`; network transport failures are out of scope here (no
  claim depends on them).
-/

/-- JSON documents as Python's `json` module produces them (floats omitted:
no claim involves them). Objects are association lists in insertion order. -/
inductive PyJson where
  | null
  | bool (b : Bool)
  | int (n : Int)
  | str (s : String)
  | arr (elts : List PyJson)
  | obj (entries : List (String × PyJson))

/-- Python `type(v).__name__` for a `PyJson` value. -/
def pyTypeName : PyJson → String
  | .null => "NoneType"
  | .bool _ => "bool"
  | .int _ => "int"
  | .str _ => "str"
  | .arr _ => "list"
  | .obj _ => "dict"

/-- The Python exceptions that can arise in the proxy's handler bodies. -/
inductive PyExc where
  | jsonDecodeError (msg : String)
  | httpException (status : Nat) (detail : String)
  | attributeError (typeName attrName : String)

/-- A single-quote character, used in Python exception messages. -/
def pyQuoteChar : String := String.singleton (Char.ofNat 39)

/-- Python `str(e)` for the exceptions of `PyExc`.  Starlette's
`HTTPException.__str__` renders as `f"{status_code}: {detail}"`; an
`AttributeError` renders as `'T' object has no attribute 'a'`. -/
def pyExcStr : PyExc → String
  | .jsonDecodeError msg => msg
  | .httpException status detail => toString status ++ ": " ++ detail
  | .attributeError t a =>
      pyQuoteChar ++ t ++ pyQuoteChar ++ " object has no attribute " ++ pyQuoteChar ++ a ++ pyQuoteChar

/-- Python `v.copy()`: defined for `dict` and `list` (a shallow copy, which is
value-equal to the input); on scalar values the attribute lookup raises
`AttributeError`. -/
def PyJson.copy : PyJson → Except PyExc PyJson
  | .arr elts => .ok (.arr elts)
  | .obj entries => .ok (.obj entries)
  | v => .error (.attributeError (pyTypeName v) "copy")

/-- Lookup in a Python dict with a default: `dict.get(key, default)`. -/
def dict_lookup (entries : List (String × PyJson)) (key : String)
    (dflt : PyJson) : PyJson :=
  ((entries.find? (fun kv => kv.1 == key)).map (fun kv => kv.2)).getD dflt

/-- Python `v.get(key, default)`: defined for `dict`; on any other value the
attribute lookup raises `AttributeError`. -/
def PyJson.get : PyJson → String → PyJson → Except PyExc PyJson
  | .obj entries, key, dflt => .ok (dict_lookup entries key dflt)
  | v, _, _ => .error (.attributeError (pyTypeName v) "get")

/-- Python truthiness of a JSON value (`bool(v)`). -/
def pyTruthy : PyJson → Bool
  | .null => false
  | .bool b => b
  | .int n => n != 0
  | .str s => s != ""
  | .arr elts => !elts.isEmpty
  | .obj entries => !entries.isEmpty

/-- Whether a value is a Python container (`dict` or `list`), i.e. a value on
which `.copy()` is defined. -/
def is_container : PyJson → Bool
  | .arr _ => true
  | .obj _ => true
  | _ => false

/-! Python string primitives used by the source. -/

/-- If `p` is a prefix of `l`, return the remainder, else `none`. -/
def dropPrefixList : List Char → List Char → Option (List Char)
  | [], l => some l
  | _ :: _, [] => none
  | p :: ps, x :: xs => if p = x then dropPrefixList ps xs else none

/-- Python `s.startswith(p)`. -/
def pyStartsWith (s p : String) : Bool :=
  (dropPrefixList p.data s.data).isSome

/-- Worker for `pySplit`: scan left to right, splitting at each leftmost
non-overlapping occurrence of `sep`; `acc` is the current segment reversed;
`fuel` bounds the recursion (the input length suffices). -/
def pySplitAux (sep : List Char) : Nat → List Char → List Char → List (List Char)
  | _, [], acc => [acc.reverse]
  | 0, rest, acc => [acc.reverse ++ rest]
  | fuel + 1, c :: rest, acc =>
    match dropPrefixList sep (c :: rest) with
    | some rest2 => acc.reverse :: pySplitAux sep fuel rest2 []
    | none => pySplitAux sep fuel rest (c :: acc)

/-- Python `s.split(sep)` for a non-empty separator. -/
def pySplit (s sep : String) : List String :=
  (pySplitAux sep.data s.data.length s.data []).map String.mk

/-! The translator seam (`class OpenAIToNIMTranslator`). -/

namespace OpenAIToNIMTranslator

/-- Source: `translate_request` — `nim_request = openai_request.copy()`, then
`if "model" in nim_request: pass` (no effect), then `return nim_request`. -/
def translate_request (openai_request : PyJson) : Except PyExc PyJson :=
  match openai_request.copy with
  | .error e => .error e
  | .ok nim_request => .ok nim_request

/-- Source: `translate_response` — `openai_response = nim_response.copy()`,
then `return openai_response`. -/
def translate_response (nim_response : PyJson) : Except PyExc PyJson :=
  match nim_response.copy with
  | .error e => .error e
  | .ok openai_response => .ok openai_response

end OpenAIToNIMTranslator

/-! The credential gate (`authenticate_request` and `auth_middleware`). -/

/-- Source: `authenticate_request`.  `auth_header` is
`request.headers.get("authorization")` (`none` when absent); `proxy_api_key`
is the configured `PROXY_API_KEY`.  Mirrors
`if not auth_header or not auth_header.startswith("Bearer "): return False;
token = auth_header.split("Bearer ")[1]; return token == PROXY_API_KEY`. -/
def authenticate_request (auth_header : Option String) (proxy_api_key : String) : Bool :=
  match auth_header with
  | none => false
  | some h =>
    if h == "" then false
    else if !(pyStartsWith h "Bearer ") then false
    else (pySplit h "Bearer ").getD 1 "" == proxy_api_key

/-- The fixed unauthenticated allow-list of `auth_middleware`. -/
def unauthenticated_paths : List String := ["/", "/health", "/docs", "/openapi.json"]

/-- The fixed 401 rejection body of `auth_middleware`. -/
def auth_error_body : PyJson :=
  .obj [("error", .obj [("message", .str "Invalid API key"),
                        ("type", .str "invalid_request_error")])]

/-- Outcome of the HTTP middleware: either an early response, or the request
is forwarded to `call_next` (the route handler). -/
inductive MiddlewareResult where
  | reject (status : Nat) (body : PyJson)
  | forward

/-- Whether the middleware invoked the route handler. -/
def route_invoked : MiddlewareResult → Bool
  | .forward => true
  | .reject _ _ => false

/-- Whether the middleware produced an early rejection response. -/
def rejects : MiddlewareResult → Bool
  | .reject _ _ => true
  | .forward => false

/-- Source: `auth_middleware`.  Allow-listed paths bypass authentication;
otherwise a failed `authenticate_request` yields the fixed 401 JSON
response and the route handler is not called. -/
def auth_middleware (path : String) (auth_header : Option String)
    (proxy_api_key : String) : MiddlewareResult :=
  if path ∈ unauthenticated_paths then .forward
  else if authenticate_request auth_header proxy_api_key then .forward
  else .reject 401 auth_error_body

/-! Serialization: `json.dumps` with its default options (separators
`", "` and `": "`, `ensure_ascii=True`). -/

/-- Lower-case hexadecimal digit. -/
def hexDigit (n : Nat) : Char :=
  if n < 10 then Char.ofNat (48 + n) else Char.ofNat (87 + n)

/-- Four-digit lower-case hexadecimal rendering (for `\uXXXX` escapes). -/
def hex4 (n : Nat) : String :=
  String.mk [hexDigit (n / 4096 % 16), hexDigit (n / 256 % 16),
             hexDigit (n / 16 % 16), hexDigit (n % 16)]

/-- The escaping `json.dumps` applies to one character of a string value
(`ensure_ascii=True`): named escapes, `\uXXXX` for other control or
non-ASCII characters, surrogate pairs beyond the basic plane. -/
def escapeChar (c : Char) : String :=
  if c = '\\' then "\\\\"
  else if c = '"' then "\\\""
  else if c = '\n' then "\\n"
  else if c = '\r' then "\\r"
  else if c = '\t' then "\\t"
  else if c.toNat = 8 then "\\b"
  else if c.toNat = 12 then "\\f"
  else if c.toNat < 32 then "\\u" ++ hex4 c.toNat
  else if c.toNat < 127 then String.singleton c
  else if c.toNat ≤ 65535 then "\\u" ++ hex4 c.toNat
  else
    "\\u" ++ hex4 (55296 + (c.toNat - 65536) / 1024) ++
      "\\u" ++ hex4 (56320 + (c.toNat - 65536) % 1024)

/-- String-content escaping of `json.dumps`. -/
def jsonEscape (s : String) : String :=
  String.join (s.data.map escapeChar)

mutual

/-- Python `json.dumps(v)` with default options. -/
def json_dumps : PyJson → String
  | .null => "null"
  | .bool true => "true"
  | .bool false => "false"
  | .int n => toString n
  | .str s => "\"" ++ jsonEscape s ++ "\""
  | .arr elts => "[" ++ json_dumps_elts elts ++ "]"
  | .obj entries => "\x7b" ++ json_dumps_entries entries ++ "\x7d"

/-- Comma-separated rendering of array elements. -/
def json_dumps_elts : List PyJson → String
  | [] => ""
  | [v] => json_dumps v
  | v :: vs => json_dumps v ++ ", " ++ json_dumps_elts vs

/-- Comma-separated rendering of object entries. -/
def json_dumps_entries : List (String × PyJson) → String
  | [] => ""
  | [(k, v)] => "\"" ++ jsonEscape k ++ "\": " ++ json_dumps v
  | (k, v) :: rest =>
      "\"" ++ jsonEscape k ++ "\": " ++ json_dumps v ++ ", " ++
        json_dumps_entries rest

end

/-! The relay engine: route handlers for the generation endpoints and the
model listing. -/

/-- What an HTTP exchange with the backend yields: the status code, the raw
body text, the body parsed as JSON when it parses (`response.json()`), and
the body split into lines for the streaming path (`response.aiter_lines()`,
lines carry no terminator). -/
structure BackendResponse where
  status : Nat
  text : String
  bodyJson : Option PyJson
  lines : List String

/-- The backend as a function from endpoint path and posted JSON document to
its response; the claims quantify over this behaviour. -/
abbrev Backend := String → PyJson → BackendResponse

/-- Endpoint path used by `chat_completions`. -/
def chat_endpoint : String := "/v1/chat/completions"

/-- Endpoint path used by `completions`. -/
def completions_endpoint : String := "/v1/completions"

/-- Source: `response.json()` — parses the body, raising
`json.JSONDecodeError` when the body is not valid JSON. -/
def BackendResponse.json (r : BackendResponse) : Except PyExc PyJson :=
  match r.bodyJson with
  | some v => .ok v
  | none => .error (.jsonDecodeError "Expecting value: line 1 column 1 (char 0)")

/-- The terminal error event of the streaming path:
`f"data: {json.dumps({'error': {'message': error_text.decode(), 'type': 'api_error'}})}\n\n"`. -/
def sse_error_event (message : String) : String :=
  "data: " ++
    json_dumps (.obj [("error", .obj [("message", .str message),
                                      ("type", .str "api_error")])]) ++
    "\n\n"

/-- The line-forwarding loop shared by both stream generators:
`async for chunk in response.aiter_lines(): if chunk: yield f"{chunk}\n"`. -/
def forward_lines : List String → List String
  | [] => []
  | chunk :: rest =>
      if chunk != "" then (chunk ++ "\n") :: forward_lines rest
      else forward_lines rest

/-- Source: the nested `generate_stream` of `chat_completions` — on a non-200
backend status it yields one terminal error event and returns; on 200 it
forwards the backend's non-empty lines. -/
def chat_generate_stream (response : BackendResponse) : List String :=
  if response.status != 200 then [sse_error_event response.text]
  else forward_lines response.lines

/-- Source: the nested `generate_stream` of `completions`; textually identical
to the one in `chat_completions`. -/
def completions_generate_stream (response : BackendResponse) : List String :=
  if response.status != 200 then [sse_error_event response.text]
  else forward_lines response.lines

/-- The payload of a `StreamingResponse`. -/
structure StreamingResponseData where
  chunks : List String
  media_type : String
  headers : List (String × String)

/-- The headers both handlers set on their `StreamingResponse`. -/
def stream_headers : List (String × String) :=
  [("Cache-Control", "no-cache"), ("Connection", "keep-alive")]

/-- What a handler body returns before the `try/except` chain is applied. -/
inductive HandlerReturn where
  | json (body : PyJson)
  | stream (resp : StreamingResponseData)

/-- The final outcome of a route handler as FastAPI serves it: a returned
document becomes a 200 JSON response, an uncaught `HTTPException` becomes a
response with its status and a detail body, a `StreamingResponse` streams. -/
inductive HandlerResult where
  | ok (body : PyJson)
  | httpError (status : Nat) (detail : String)
  | streaming (resp : StreamingResponseData)

/-- One outbound POST to the backend (endpoint path and posted document). -/
structure BackendCall where
  endpoint : String
  body : PyJson

/-- A handler's result together with the outbound backend calls it makes. -/
structure HandlerOutput where
  result : HandlerResult
  backendCalls : List BackendCall

/-- The `try/except` chain shared textually by both generation handlers:
`except json.JSONDecodeError: raise HTTPException(400, "Invalid JSON in
request body")`, then `except Exception as e: raise HTTPException(500,
str(e))`.  Note `HTTPException` is itself an `Exception`, so an
`HTTPException` raised inside the `try` block is caught by the second
clause and replaced by a 500. -/
def handle_exceptions : Except PyExc HandlerReturn → HandlerResult
  | .ok (.json body) => .ok body
  | .ok (.stream s) => .streaming s
  | .error (.jsonDecodeError _) => .httpError 400 "Invalid JSON in request body"
  | .error e => .httpError 500 (pyExcStr e)

/-- Source: the `try` block of `chat_completions`.  `raw_body` is the result
of `await request.json()` (`none` when the body is not valid JSON, which
raises `json.JSONDecodeError`).  Returns the body's result paired with the
outbound backend calls made. -/
def chat_completions_body (backend : Backend) (raw_body : Option PyJson) :
    Except PyExc HandlerReturn × List BackendCall :=
  match raw_body with
  | none => (.error (.jsonDecodeError "Expecting value: line 1 column 1 (char 0)"), [])
  | some request_data =>
    match OpenAIToNIMTranslator.translate_request request_data with
    | .error e => (.error e, [])
    | .ok nim_request =>
      match request_data.get "stream" (.bool false) with
      | .error e => (.error e, [])
      | .ok is_stream =>
        if pyTruthy is_stream then
          let response := backend chat_endpoint nim_request
          (.ok (.stream ⟨chat_generate_stream response, "text/plain", stream_headers⟩),
           [⟨chat_endpoint, nim_request⟩])
        else
          let response := backend chat_endpoint nim_request
          if response.status == 200 then
            match response.json with
            | .error e => (.error e, [⟨chat_endpoint, nim_request⟩])
            | .ok nim_response =>
              match OpenAIToNIMTranslator.translate_response nim_response with
              | .error e => (.error e, [⟨chat_endpoint, nim_request⟩])
              | .ok openai_response =>
                  (.ok (.json openai_response), [⟨chat_endpoint, nim_request⟩])
          else
            (.error (.httpException response.status response.text),
             [⟨chat_endpoint, nim_request⟩])

/-- Source: `chat_completions` — the `try` body with its `except` chain. -/
def chat_completions (backend : Backend) (raw_body : Option PyJson) : HandlerOutput :=
  { result := handle_exceptions (chat_completions_body backend raw_body).1,
    backendCalls := (chat_completions_body backend raw_body).2 }

/-- Source: the `try` block of `completions`; textually identical to
`chat_completions_body` except for the endpoint path. -/
def completions_body (backend : Backend) (raw_body : Option PyJson) :
    Except PyExc HandlerReturn × List BackendCall :=
  match raw_body with
  | none => (.error (.jsonDecodeError "Expecting value: line 1 column 1 (char 0)"), [])
  | some request_data =>
    match OpenAIToNIMTranslator.translate_request request_data with
    | .error e => (.error e, [])
    | .ok nim_request =>
      match request_data.get "stream" (.bool false) with
      | .error e => (.error e, [])
      | .ok is_stream =>
        if pyTruthy is_stream then
          let response := backend completions_endpoint nim_request
          (.ok (.stream ⟨completions_generate_stream response, "text/plain", stream_headers⟩),
           [⟨completions_endpoint, nim_request⟩])
        else
          let response := backend completions_endpoint nim_request
          if response.status == 200 then
            match response.json with
            | .error e => (.error e, [⟨completions_endpoint, nim_request⟩])
            | .ok nim_response =>
              match OpenAIToNIMTranslator.translate_response nim_response with
              | .error e => (.error e, [⟨completions_endpoint, nim_request⟩])
              | .ok openai_response =>
                  (.ok (.json openai_response), [⟨completions_endpoint, nim_request⟩])
          else
            (.error (.httpException response.status response.text),
             [⟨completions_endpoint, nim_request⟩])

/-- Source: `completions` — the `try` body with its `except` chain. -/
def completions (backend : Backend) (raw_body : Option PyJson) : HandlerOutput :=
  { result := handle_exceptions (completions_body backend raw_body).1,
    backendCalls := (completions_body backend raw_body).2 }

/-- Source: the `try` block of `list_models` — a GET to
`<base>/v1/models`; on 200 return `response.json()`, else raise
`HTTPException(response.status_code, response.text)`. -/
def list_models_body (response : BackendResponse) : Except PyExc PyJson :=
  if response.status == 200 then response.json
  else .error (.httpException response.status response.text)

/-- Source: `list_models` — its `except Exception` clause replaces ANY
exception raised in the `try` block (including the `HTTPException` carrying
the backend's status) by `HTTPException(500, "Failed to fetch models")`. -/
def list_models (response : BackendResponse) : HandlerResult :=
  match list_models_body response with
  | .ok v => .ok v
  | .error _ => .httpError 500 "Failed to fetch models"

/-! The unauthenticated routes. -/

/-- Source: the `root` handler: a returned dict, served with status 200. -/
def root : Nat × PyJson :=
  (200, .obj [("message", .str "NVIDIA NIM OpenAI Proxy Server"),
              ("status", .str "running")])

/-- Source: the `health` handler: a returned dict, served with status 200. -/
def health : Nat × PyJson := (200, .obj [("status", .str "healthy")])

/-- Status of the responses on the unauthenticated allow-list: `/` and
`/health` are the handlers above; `/docs` and `/openapi.json` are FastAPI's
auto-generated documentation pages (framework code, served with status
200); any other path is not on the allow-list (FastAPI would answer 404,
but no claim depends on that). -/
def unauthenticated_route_status : String → Nat
  | "/" => root.1
  | "/health" => health.1
  | "/docs" => 200
  | "/openapi.json" => 200
  | _ => 404

/-! Demonstration inputs used by the witness theorems. -/

/-- A backend that answers every request with the same fixed 200 response. -/
def demo_backend : Backend := fun _ _ => ⟨200, "", some (.obj [("id", .str "x")]), []⟩

/-- A backend that answers every request with 429 and body `rate limited`. -/
def demo_backend_429 : Backend := fun _ _ => ⟨429, "rate limited", none, []⟩

/-- A backend whose 200 response body is the scalar JSON document `7`. -/
def demo_backend_scalar : Backend := fun _ _ => ⟨200, "7", some (.int 7), []⟩

/-- A 200 streaming backend response with an empty line among its lines. -/
def demo_stream_response : BackendResponse :=
  ⟨200, "", none, ["data: \x7b\"a\":1\x7d", "", "data: [DONE]"]⟩

/-- A non-200 backend response seen by the streaming path. -/
def demo_error_response : BackendResponse := ⟨500, "boom", none, []⟩

/-! Theorems settling the claims. -/

/-- C1, counterexample.  The claim says every request whose `Authorization`
header is not exactly `Bearer <credential>` is rejected with 401.  The code
extracts the token as `auth_header.split("Bearer ")[1]`, the segment between
the first `"Bearer "` and the next occurrence of `"Bearer "` — so for the
configured credential `k`, the header `Bearer kBearer x` (whose token
`kBearer x` differs from `k`) authenticates, and the middleware forwards the
request to the route handler instead of rejecting it. -/
theorem C1_counterexample :
    auth_middleware "/v1/models" (some "Bearer kBearer x") "k" = .forward ∧
      some "Bearer kBearer x" ≠ some ("Bearer " ++ "k") := by
  refine ⟨rfl, ?_⟩
  decide

/-- C1, amended.  For every path not on the unauthenticated allow-list, if
`authenticate_request` fails — the header is absent or empty, does not start
with `Bearer `, or the `split("Bearer ")[1]` segment of the header is not
string-equal to the configured credential — then the middleware responds 401
with the fixed JSON body and the route handler is not invoked. -/
theorem C1_theorem (path : String) (auth_header : Option String) (key : String)
    (hpath : path ∉ unauthenticated_paths)
    (hauth : authenticate_request auth_header key = false) :
    auth_middleware path auth_header key = .reject 401 auth_error_body ∧
      route_invoked (auth_middleware path auth_header key) = false := by
  simp [auth_middleware, hpath, hauth, route_invoked]

/-- C1, witness: a request to `/v1/chat/completions` with no header. -/
theorem C1_witness :
    "/v1/chat/completions" ∉ unauthenticated_paths ∧
      authenticate_request none "secret" = false ∧
      (auth_middleware "/v1/chat/completions" none "secret"
          = .reject 401 auth_error_body ∧
        route_invoked (auth_middleware "/v1/chat/completions" none "secret") = false) :=
  ⟨by decide, rfl, C1_theorem "/v1/chat/completions" none "secret" (by decide) rfl⟩

/-- C2, evaluation at the failing input.  The claim (and the spec) say a
non-200 backend status is surfaced to the caller with the backend's body as
the detail.  The code raises `HTTPException(response.status_code,
response.text)` inside its `try` block, but `HTTPException` is an
`Exception`, so the handler's own `except Exception` clause catches it and
re-raises `HTTPException(500, str(e))`: a backend 429 with body
`rate limited` yields proxy status 500 with detail `429: rate limited`
(and `list_models` likewise collapses every backend error to
500 `Failed to fetch models`). -/
theorem C2_theorem :
    (chat_completions demo_backend_429 (some (.obj []))).result
        = .httpError 500 (toString 429 ++ ": " ++ "rate limited") ∧
      (chat_completions demo_backend_429 (some (.obj []))).result
        ≠ .httpError 429 "rate limited" ∧
      list_models ⟨429, "rate limited", none, []⟩
        = .httpError 500 "Failed to fetch models" := by
  refine ⟨rfl, ?_, rfl⟩
  intro h
  rw [show (chat_completions demo_backend_429 (some (.obj []))).result
      = .httpError 500 "429: rate limited" from rfl] at h
  simp at h

/-- C3: on a 200 backend response, the outbound stream of either generator is
exactly the backend's lines, in receipt order, with the empty lines skipped
and every forwarded line verbatim with a newline appended — so no non-empty
line is dropped, merged, or reordered. -/
theorem C3_theorem (response : BackendResponse) (h : response.status = 200) :
    chat_generate_stream response
        = (response.lines.filter (fun chunk => chunk != "")).map
            (fun chunk => chunk ++ "\n") ∧
      completions_generate_stream response
        = (response.lines.filter (fun chunk => chunk != "")).map
            (fun chunk => chunk ++ "\n") := by
  have hf : ∀ ls : List String,
      forward_lines ls = (ls.filter (fun c => c != "")).map (fun c => c ++ "\n") := by
    intro ls
    induction ls with
    | nil => rfl
    | cons c rest ih =>
      by_cases hc : c = "" <;> simp [forward_lines, hc, ih]
  constructor <;> simp [chat_generate_stream, completions_generate_stream, h, hf]

/-- C3, witness: the spec's three-line example stream with an interleaved
empty line. -/
theorem C3_witness :
    demo_stream_response.status = 200 ∧
      (chat_generate_stream demo_stream_response
          = (demo_stream_response.lines.filter (fun chunk => chunk != "")).map
              (fun chunk => chunk ++ "\n") ∧
        completions_generate_stream demo_stream_response
          = (demo_stream_response.lines.filter (fun chunk => chunk != "")).map
              (fun chunk => chunk ++ "\n")) :=
  ⟨rfl, C3_theorem demo_stream_response rfl⟩

/-- C4: when the request body does not parse as JSON, both generation
handlers answer 400 with the fixed detail and no outbound backend call is
made — for every backend, so the outcome cannot depend on it. -/
theorem C4_theorem (backend : Backend) :
    chat_completions backend none
        = ⟨.httpError 400 "Invalid JSON in request body", []⟩ ∧
      completions backend none
        = ⟨.httpError 400 "Invalid JSON in request body", []⟩ :=
  ⟨rfl, rfl⟩

/-- C5, counterexample.  The claim quantifies over every JSON body `B`; for
the scalar body `7` the identity translator calls `.copy()` on an `int`,
which raises `AttributeError`, and the handler's `except Exception` clause
turns the 200 backend response into a 500 — not a 200 with body `7`. -/
theorem C5_counterexample :
    (chat_completions demo_backend_scalar (some (.obj []))).result
        = .httpError 500 (pyExcStr (.attributeError "int" "copy")) ∧
      (chat_completions demo_backend_scalar (some (.obj []))).result
        ≠ .ok (.int 7) := by
  refine ⟨rfl, ?_⟩
  intro h
  rw [show (chat_completions demo_backend_scalar (some (.obj []))).result
      = .httpError 500 (pyExcStr (.attributeError "int" "copy")) from rfl] at h
  simp at h

/-- C5, amended.  On the non-streaming path (request an object whose `stream`
entry is falsy), for every backend 200 response whose JSON body `B` is a
container (object or array), the proxy returns the 200 result
`translate_response(B)`, which equals `B` unchanged; scalar JSON bodies
instead make the translator raise (see the counterexample). -/
theorem C5_theorem (entries : List (String × PyJson)) (B : PyJson) (t : String)
    (ls : List String) (hB : is_container B = true)
    (hstream : pyTruthy (dict_lookup entries "stream" (.bool false)) = false) :
    chat_completions (fun _ _ => ⟨200, t, some B, ls⟩) (some (.obj entries))
        = ⟨.ok B, [⟨chat_endpoint, .obj entries⟩]⟩ ∧
      OpenAIToNIMTranslator.translate_response B = .ok B := by
  cases B <;> simp_all [chat_completions, chat_completions_body, is_container,
    OpenAIToNIMTranslator.translate_request, OpenAIToNIMTranslator.translate_response,
    PyJson.copy, PyJson.get, BackendResponse.json, handle_exceptions]

/-- C5, witness: the spec's example — backend 200 with body `{"id":"x"}`,
request without `stream`. -/
theorem C5_witness :
    is_container (.obj [("id", .str "x")]) = true ∧
      pyTruthy (dict_lookup [] "stream" (.bool false)) = false ∧
      (chat_completions (fun _ _ => ⟨200, "", some (.obj [("id", .str "x")]), []⟩)
            (some (.obj []))
          = ⟨.ok (.obj [("id", .str "x")]), [⟨chat_endpoint, .obj []⟩]⟩ ∧
        OpenAIToNIMTranslator.translate_response (.obj [("id", .str "x")])
          = .ok (.obj [("id", .str "x")])) :=
  ⟨rfl, rfl, C5_theorem [] (.obj [("id", .str "x")]) "" [] rfl rfl⟩

/-- C6: when the backend's initial streaming status is not 200, the outbound
stream of either generator is exactly one terminal chunk and nothing after
it; the chunk is the server-sent-event line `data: {"error": {"message":
<the full backend body>, "type": "api_error"}}` followed by a blank line
(the trailing `\n\n`). -/
theorem C6_theorem (response : BackendResponse) (h : response.status ≠ 200) :
    chat_generate_stream response = [sse_error_event response.text] ∧
      completions_generate_stream response = [sse_error_event response.text] ∧
      sse_error_event response.text =
        "data: \x7b\"error\": \x7b\"message\": \"" ++ jsonEscape response.text ++
          "\", \"type\": \"api_error\"\x7d\x7d\n\n" := by
  refine ⟨?_, ?_, ?_⟩
  · simp [chat_generate_stream, h]
  · simp [completions_generate_stream, h]
  · apply String.ext
    simp only [sse_error_event, json_dumps, json_dumps_entries,
      show jsonEscape "error" = "error" from rfl,
      show jsonEscape "message" = "message" from rfl,
      show jsonEscape "type" = "type" from rfl,
      show jsonEscape "api_error" = "api_error" from rfl,
      String.data_append]
    simp only [List.append_assoc, List.cons_append, List.nil_append]

/-- C6, witness: a 500 backend response with body `boom`. -/
theorem C6_witness :
    demo_error_response.status ≠ 200 ∧
      (chat_generate_stream demo_error_response
          = [sse_error_event demo_error_response.text] ∧
        completions_generate_stream demo_error_response
          = [sse_error_event demo_error_response.text] ∧
        sse_error_event demo_error_response.text =
          "data: \x7b\"error\": \x7b\"message\": \"" ++
            jsonEscape demo_error_response.text ++
            "\", \"type\": \"api_error\"\x7d\x7d\n\n") :=
  ⟨by decide, C6_theorem demo_error_response (by decide)⟩

/-- C7, counterexample.  The claim quantifies over every JSON document; on
the scalar document `5` Python evaluates `(5).copy()`, which raises
`AttributeError` rather than returning the document. -/
theorem C7_counterexample :
    OpenAIToNIMTranslator.translate_request (.int 5)
        = .error (.attributeError "int" "copy") ∧
      OpenAIToNIMTranslator.translate_request (.int 5) ≠ .ok (.int 5) := by
  refine ⟨rfl, ?_⟩
  intro h
  rw [show OpenAIToNIMTranslator.translate_request (.int 5)
      = .error (.attributeError "int" "copy") from rfl] at h
  simp at h

/-- C7, amended.  For every JSON document that is a container (object or
array — the values Python `.copy()` is defined on), `translate_request` and
`translate_response` both return the document unchanged, and both are
idempotent. -/
theorem C7_theorem (x : PyJson) (h : is_container x = true) :
    OpenAIToNIMTranslator.translate_request x = .ok x ∧
      OpenAIToNIMTranslator.translate_response x = .ok x ∧
      (OpenAIToNIMTranslator.translate_request x).bind
          OpenAIToNIMTranslator.translate_request
        = OpenAIToNIMTranslator.translate_request x ∧
      (OpenAIToNIMTranslator.translate_response x).bind
          OpenAIToNIMTranslator.translate_response
        = OpenAIToNIMTranslator.translate_response x := by
  cases x <;> simp_all [OpenAIToNIMTranslator.translate_request,
    OpenAIToNIMTranslator.translate_response, PyJson.copy, is_container, Except.bind]

/-- C7, witness: the object `{"model": "m"}`. -/
theorem C7_witness :
    is_container (.obj [("model", .str "m")]) = true ∧
      (OpenAIToNIMTranslator.translate_request (.obj [("model", .str "m")])
          = .ok (.obj [("model", .str "m")]) ∧
        OpenAIToNIMTranslator.translate_response (.obj [("model", .str "m")])
          = .ok (.obj [("model", .str "m")]) ∧
        (OpenAIToNIMTranslator.translate_request (.obj [("model", .str "m")])).bind
            OpenAIToNIMTranslator.translate_request
          = OpenAIToNIMTranslator.translate_request (.obj [("model", .str "m")]) ∧
        (OpenAIToNIMTranslator.translate_response (.obj [("model", .str "m")])).bind
            OpenAIToNIMTranslator.translate_response
          = OpenAIToNIMTranslator.translate_response (.obj [("model", .str "m")])) :=
  ⟨rfl, C7_theorem (.obj [("model", .str "m")]) rfl⟩

/-- C8: every request to an allow-listed path bypasses the credential check —
for any header, including none, the middleware forwards to the route handler
— and the route's response status (the handlers for `/` and `/health`,
FastAPI's own pages for `/docs` and `/openapi.json`) is not 401. -/
theorem C8_theorem (path : String) (auth_header : Option String) (key : String)
    (h : path ∈ unauthenticated_paths) :
    auth_middleware path auth_header key = .forward ∧
      unauthenticated_route_status path ≠ 401 := by
  refine ⟨by simp [auth_middleware, h], ?_⟩
  simp only [unauthenticated_paths, List.mem_cons, List.not_mem_nil, or_false] at h
  rcases h with rfl | rfl | rfl | rfl <;> decide

/-- C8, witness: `GET /health` with no Authorization header. -/
theorem C8_witness :
    "/health" ∈ unauthenticated_paths ∧
      (auth_middleware "/health" none "secret" = .forward ∧
        unauthenticated_route_status "/health" ≠ 401) :=
  ⟨by decide, C8_theorem "/health" none "secret" (by decide)⟩

/-- C9: whenever the credential gate rejects, the response is the one fixed
constant — 401 with the fixed body — so two rejecting runs with different
configured credentials and different presented tokens produce identical
responses: nothing about the expected secret or the presented token reaches
the rejection. -/
theorem C9_theorem (p1 p2 : String) (h1 h2 : Option String) (k1 k2 : String)
    (r1 : rejects (auth_middleware p1 h1 k1) = true)
    (r2 : rejects (auth_middleware p2 h2 k2) = true) :
    auth_middleware p1 h1 k1 = .reject 401 auth_error_body ∧
      auth_middleware p1 h1 k1 = auth_middleware p2 h2 k2 := by
  have key : ∀ p h k, rejects (auth_middleware p h k) = true →
      auth_middleware p h k = .reject 401 auth_error_body := by
    intro p h k hr
    unfold auth_middleware at hr ⊢
    split at hr
    · simp [rejects] at hr
    · split at hr
      · simp [rejects] at hr
      · simp [*]
  exact ⟨key p1 h1 k1 r1, (key p1 h1 k1 r1).trans (key p2 h2 k2 r2).symm⟩

/-- C9, witness: two rejecting runs with different credentials and different
presented tokens. -/
theorem C9_witness :
    rejects (auth_middleware "/v1/models" (some "Bearer a") "key-one") = true ∧
      rejects (auth_middleware "/v1/models" none "key-two") = true ∧
      (auth_middleware "/v1/models" (some "Bearer a") "key-one"
          = .reject 401 auth_error_body ∧
        auth_middleware "/v1/models" (some "Bearer a") "key-one"
          = auth_middleware "/v1/models" none "key-two") :=
  ⟨rfl, rfl,
    C9_theorem "/v1/models" "/v1/models" (some "Bearer a") none "key-one" "key-two" rfl rfl⟩

/-- C10: the two generation handlers implement the same relay differing only
in the endpoint path they target — whenever the backend behaves identically
at the two paths, both handlers produce the same final outcome (status,
body, headers, and streamed chunks) for the same request body. -/
theorem C10_theorem (backend : Backend) (raw_body : Option PyJson)
    (h : ∀ body, backend chat_endpoint body = backend completions_endpoint body) :
    (chat_completions backend raw_body).result
      = (completions backend raw_body).result := by
  have hb : (chat_completions_body backend raw_body).1
      = (completions_body backend raw_body).1 := by
    cases raw_body with
    | none => rfl
    | some rd =>
      simp only [chat_completions_body, completions_body]
      cases OpenAIToNIMTranslator.translate_request rd with
      | error e => rfl
      | ok nim_request =>
        cases rd.get "stream" (.bool false) with
        | error e => rfl
        | ok is_stream =>
          simp only [h nim_request]
          by_cases hs : pyTruthy is_stream = true
          · simp only [if_pos hs]
            rfl
          · simp only [if_neg hs]
            by_cases hc : ((backend completions_endpoint nim_request).status == 200) = true
            · simp only [if_pos hc]
              cases (backend completions_endpoint nim_request).json with
              | error e => rfl
              | ok nr =>
                simp only []
                cases OpenAIToNIMTranslator.translate_response nr with
                | error e => rfl
                | ok o => rfl
            · simp only [if_neg hc]
  simp only [chat_completions, completions, hb]

/-- C10, witness: a constant backend (identical at every path) and a
streaming request. -/
theorem C10_witness :
    (∀ body, demo_backend chat_endpoint body = demo_backend completions_endpoint body) ∧
      (chat_completions demo_backend (some (.obj [("stream", .bool true)]))).result
        = (completions demo_backend (some (.obj [("stream", .bool true)]))).result :=
  ⟨fun _ => rfl,
    C10_theorem demo_backend (some (.obj [("stream", .bool true)])) (fun _ => rfl)⟩
